import Mathlib

/-!
Shallow embedding of the Trove database resource adapters of
riboseinc/terraform-provider-openstack: the per-kind status probes
(StateRefreshFunc closures), the create/read/delete flows, and the
poll-until-state primitive they are driven by.

Remote interactions are modelled by explicit environment values: a get
request yields a `GetResult`, a child listing yields a `ListResult`, and a
poll is run over the finite sequence of responses the remote would give on
the successive ticks that fit into the poll window.
-/

set_option autoImplicit false

namespace TroveProvider

/-- Outcome of one invocation of a `resource.StateRefreshFunc`: the Go
triple `(interface\x7b\x7d, string, error)` collapsed to the state string on a
nil error, or the error message otherwise (the state string accompanying a
non-nil error is irrelevant to the wait loop). -/
inductive RefreshOutcome where
  | ok (state : String)
  | err (msg : String)
  deriving DecidableEq, Repr

/-- Result of a whole `WaitForState` run. -/
inductive WaitResult where
  | success (state : String)
  | refreshError (msg : String)
  | unexpectedState (state : String)
  | timeout
  deriving DecidableEq, Repr

/-- Modelled from the spec: the Poll-Until-State primitive of section 4.1
(`StateChangeConf.WaitForState` of the vendored terraform helper, which is
not among the repository sources). The probe is given as the finite list of
outcomes it produces on the successive ticks that fit into the poll window;
a target state succeeds on the same tick, a pending state polls again, a
probe error or a state outside both sets fails immediately, and an
exhausted window is the timeout. -/
def WaitForState (pending target : List String) : List RefreshOutcome → WaitResult
  | [] => WaitResult.timeout
  | RefreshOutcome.err m :: _ => WaitResult.refreshError m
  | RefreshOutcome.ok s :: rest =>
      if s ∈ target then WaitResult.success s
      else if s ∈ pending then WaitForState pending target rest
      else WaitResult.unexpectedState s

/-- Modelled from the spec: the descriptive text each failing `WaitForState`
outcome surfaces when a caller formats it with `%s`. -/
def waitMsg : WaitResult → String
  | WaitResult.success s => s
  | WaitResult.refreshError m => m
  | WaitResult.unexpectedState s => "unexpected state " ++ s
  | WaitResult.timeout => "timeout while waiting for state"

/-- Result of a get-by-ID call against the remote API: the payload, the
distinguishable not-found error (`gophercloud.ErrDefault404`), or any other
error. -/
inductive GetResult (α : Type) where
  | found (payload : α)
  | notFound
  | getError (msg : String)
  deriving DecidableEq, Repr

/-- Result of a list-children call (`AllPages` plus extraction); the two
error sources of the source code are collapsed into one error message. -/
abbrev ListResult (α : Type) := Except String (List α)

/-- A database record as extracted from a parent instance listing
(`databases.ExtractDBs`). -/
structure Database where
  name : String
  charset : String
  collate : String
  deriving DecidableEq, Repr

/-- A user record as extracted from a parent instance listing
(`users.ExtractUsers`). -/
structure User where
  name : String
  password : String
  host : String
  databases : List String
  deriving DecidableEq, Repr

/-- A database instance as returned by `instances.Get`. -/
structure Instance where
  id : String
  name : String
  status : String
  deriving DecidableEq, Repr

/-- A configuration group as returned by `configurations.Get`; note the
payload carries no status field. -/
structure ConfigZ where
  id : String
  name : String
  description : String
  deriving DecidableEq, Repr

/-- Embeds `DatabaseStateRefreshFunc`
(src/openstack/resource_openstack_database.go, lines 171-192): list the
parent instance's databases and scan for the declared name; a match reports
state "ACTIVE", no match reports an error, a failed listing reports the
listing error. -/
def DatabaseStateRefreshFunc (dbname : String) : ListResult Database → RefreshOutcome
  | Except.error m => RefreshOutcome.err ("Unable to retrieve databases, pageszzz: " ++ m)
  | Except.ok allDatabases =>
      if allDatabases.any (fun v => v.name = dbname) then RefreshOutcome.ok "ACTIVE"
      else RefreshOutcome.err ("Error retrieving database " ++ dbname ++ " status")

/-- Embeds `DbUserStateRefreshFunc` (src/unnamed/part_001, lines 186-207):
the user analogue of the database child scan. -/
def DbUserStateRefreshFunc (username : String) : ListResult User → RefreshOutcome
  | Except.error m => RefreshOutcome.err ("Unable to retrieve users, pages: " ++ m)
  | Except.ok allUsers =>
      if allUsers.any (fun v => v.name = username) then RefreshOutcome.ok "ACTIVE"
      else RefreshOutcome.err ("Error retrieving user " ++ username ++ " status")

/-- Embeds `InstanceStateRefreshFunc`
(src/openstack/resource_openstack_db_instance.go, lines 199-215, identical
in src/unnamed/part_003): a 404 reports the sentinel "deleted", a payload
with status "error" reports an error, any other payload reports its status
verbatim. -/
def InstanceStateRefreshFunc : GetResult Instance → RefreshOutcome
  | GetResult.notFound => RefreshOutcome.ok "deleted"
  | GetResult.getError m => RefreshOutcome.err m
  | GetResult.found i =>
      if i.status = "error" then RefreshOutcome.err "There was an error creating the instance."
      else RefreshOutcome.ok i.status

/-- Embeds `DbConfigGroupStateRefreshFunc`
(src/openstack/resource_openstack_db_config_group.go, lines 215-232): a 404
reports the sentinel "deleted"; every successful fetch reports "ACTIVE"
(the status check of the source is commented out). -/
def DbConfigGroupStateRefreshFunc : GetResult ConfigZ → RefreshOutcome
  | GetResult.notFound => RefreshOutcome.ok "deleted"
  | GetResult.getError m => RefreshOutcome.err m
  | GetResult.found _ => RefreshOutcome.ok "ACTIVE"

/-- Embeds the `DbConfigGroupStateRefreshFunc` copy of src/unnamed/part_002
(lines 220-232), which differs only in the casing of the absent sentinel:
"DELETED". -/
def DbConfigGroupStateRefreshFuncP2 : GetResult ConfigZ → RefreshOutcome
  | GetResult.notFound => RefreshOutcome.ok "DELETED"
  | GetResult.getError m => RefreshOutcome.err m
  | GetResult.found _ => RefreshOutcome.ok "ACTIVE"

/-! ### Create flows -/

/-- Environment of one run of `resourceDatabaseCreate`: the result of the
`databases.Create` batch call (which returns no object identifier), and the
per-tick listing responses for the child-scan poll. -/
structure DbCreateEnv where
  createResult : Except String Unit
  listings : List (ListResult Database)
  deriving Repr

/-- Embeds `resourceDatabaseCreate`
(src/openstack/resource_openstack_database.go, lines 59-98). The result of
`databases.Create` is discarded without an error check, exactly as in the
source; the flow proceeds directly to the poll, and on success persists the
declared parent instance identifier (`d.SetId(instance_id)`). Returns the
persisted identifier, or the error returned to the caller. -/
def resourceDatabaseCreate (instance_id dbname : String) (env : DbCreateEnv) :
    Except String String :=
  match WaitForState ["BUILD"] ["ACTIVE"]
      (env.listings.map (DatabaseStateRefreshFunc dbname)) with
  | WaitResult.success _ => Except.ok instance_id
  | w => Except.error ("Error waiting for database (" ++ waitMsg w ++ ") to become ready")

/-- Environment of one run of `resourceDbUserCreate`. -/
structure UserCreateEnv where
  createResult : Except String Unit
  listings : List (ListResult User)
  deriving Repr

/-- Embeds `resourceDbUserCreate` (src/unnamed/part_001, lines 67-115). The
result of `users.Create` is discarded without an error check; on poll
success the declared parent instance identifier is persisted. -/
def resourceDbUserCreate (instance_id username : String) (env : UserCreateEnv) :
    Except String String :=
  match WaitForState ["BUILD"] ["ACTIVE"]
      (env.listings.map (DbUserStateRefreshFunc username)) with
  | WaitResult.success _ => Except.ok instance_id
  | w => Except.error ("Error waiting for user (" ++ waitMsg w ++ ") to be created")

/-- Environment of one run of `resourceDatabaseInstanceCreate`: the result
of `instances.Create(...).Extract()` and the per-tick get responses. -/
structure InstanceCreateEnv where
  createResult : Except String Instance
  gets : List (GetResult Instance)
  deriving Repr

/-- Embeds `resourceDatabaseInstanceCreate`
(src/openstack/resource_openstack_db_instance.go, lines 75-132, poll and
identity logic identical in src/unnamed/part_003): a rejected create call
is returned at once; otherwise the flow polls and on success persists the
instance ID returned by the create call (`d.SetId(instance.ID)`). -/
def resourceDatabaseInstanceCreate (env : InstanceCreateEnv) : Except String String :=
  match env.createResult with
  | Except.error e => Except.error ("Error creating cloud database instance: " ++ e)
  | Except.ok inst =>
      match WaitForState ["BUILD"] ["ACTIVE"] (env.gets.map InstanceStateRefreshFunc) with
      | WaitResult.success _ => Except.ok inst.id
      | w => Except.error ("Error waiting for instance (" ++ inst.id
               ++ ") to become ready: " ++ waitMsg w)

/-- Environment of one run of `resourceDbConfigGroupCreate`: the result of
`configurations.Create(...).Extract()` and the per-tick get responses. -/
structure CgCreateEnv where
  createResult : Except String ConfigZ
  gets : List (GetResult ConfigZ)
  deriving Repr

/-- Embeds the control flow of `resourceDbConfigGroupCreate`
(src/unnamed/part_002, lines 88-162): a rejected create call is returned at
once; otherwise the flow polls and on success persists the group ID
returned by the create call (`d.SetId(cgroup.ID)`). The construction of the
transmitted values map is embedded separately as `configGroupValues`. -/
def resourceDbConfigGroupCreate (env : CgCreateEnv) : Except String String :=
  match env.createResult with
  | Except.error e => Except.error ("Error creating cloud database configuration: " ++ e)
  | Except.ok cgroup =>
      match WaitForState ["BUILD"] ["ACTIVE"] (env.gets.map DbConfigGroupStateRefreshFuncP2) with
      | WaitResult.success _ => Except.ok cgroup.id
      | w => Except.error ("Error waiting for configuration (" ++ cgroup.id
               ++ ") to become ready: " ++ waitMsg w)

/-! ### Configuration values marshalling -/

/-- A transmitted configuration value: the wire format distinguishes
numeric from string parameters. -/
inductive ConfigValue where
  | str (s : String)
  | int (n : Int)
  deriving DecidableEq, Repr

/-- Digits-only parse of a character list, the core of `strconv.Atoi`. -/
def digitsToNat? (cs : List Char) : Option Nat :=
  if cs = [] then none
  else if cs.all (fun c => c.isDigit) then
    some (cs.foldl (fun acc c => acc * 10 + (c.toNat - 48)) 0)
  else none

/-- Embeds Go `strconv.Atoi` on a 64-bit platform: an optional sign
followed by digits, the value required to fit in a signed 64-bit integer;
anything else is a parse failure. -/
def atoi? (s : String) : Option Int :=
  match s.toList with
  | '+' :: rest =>
      match digitsToNat? rest with
      | some n => if n ≤ 9223372036854775807 then some (Int.ofNat n) else none
      | none => none
  | '-' :: rest =>
      match digitsToNat? rest with
      | some n => if n ≤ 9223372036854775808 then some (-(Int.ofNat n)) else none
      | none => none
  | cs =>
      match digitsToNat? cs with
      | some n => if n ≤ 9223372036854775807 then some (Int.ofNat n) else none
      | none => none

/-- The per-value coercion of src/unnamed/part_002, lines 122-125: a string
that `strconv.Atoi` accepts is transmitted as the integer, any other string
is transmitted unchanged. -/
def coerceConfigValue (s : String) : ConfigValue :=
  match atoi? s with
  | some n => ConfigValue.int n
  | none => ConfigValue.str s

/-- Go map assignment `values[name] = value` on an association list:
overwrite an existing key, else append. -/
def mapSet (m : List (String × ConfigValue)) (k : String) (v : ConfigValue) :
    List (String × ConfigValue) :=
  match m with
  | [] => [(k, v)]
  | (k0, v0) :: rest => if k0 = k then (k, v) :: rest else (k0, v0) :: mapSet rest k v

/-- Go map lookup on the association list representation. -/
def mapGet (m : List (String × ConfigValue)) (k : String) : Option ConfigValue :=
  match m with
  | [] => none
  | (k0, v0) :: rest => if k0 = k then some v0 else mapGet rest k

/-- Embeds the `values` construction loop of `resourceDbConfigGroupCreate`
in src/unnamed/part_002 (lines 113-130): every element of the declared
configuration list is inserted, its value coerced by `strconv.Atoi`. -/
def configGroupValues (configuration : List (String × String)) :
    List (String × ConfigValue) :=
  configuration.foldl (fun values z => mapSet values z.1 (coerceConfigValue z.2)) []

/-- Embeds the `values` construction of `resourceDbConfigGroupCreate` in
src/openstack/resource_openstack_db_config_group.go (lines 117-126): only
element [0] of the declared list is transmitted, and its value is kept as
the raw string with no integer coercion. -/
def configGroupValuesV1 (configuration : List (String × String)) :
    List (String × ConfigValue) :=
  match configuration with
  | [] => []
  | z :: _ => [(z.1, ConfigValue.str z.2)]

/-! ### Delete flows

Each delete flow returns the identifier persisted after the run on success
(`Except.ok newId`, where `d.SetId("")` yields `""`), or the error returned
to the caller (in which case the identifier is left in place). -/

/-- Environment of one run of `resourceDatabaseDelete`: the child listing
and the result of the `databases.Delete` call. -/
structure DbDeleteEnv where
  listing : ListResult Database
  deleteResult : Except String Unit
  deriving Repr

/-- Embeds `resourceDatabaseDelete`
(src/openstack/resource_openstack_database.go, lines 131-167): a failed
listing is returned; otherwise the existence scan only logs, the result of
`databases.Delete` is discarded without an error check, and the identifier
is cleared unconditionally (`d.SetId("")`). No delete poll exists. -/
def resourceDatabaseDelete (dbname : String) (env : DbDeleteEnv) : Except String String :=
  match env.listing with
  | Except.error e => Except.error ("Unable to retrieve databases: " ++ e)
  | Except.ok allDatabases =>
      let _dbExists := allDatabases.any (fun v => v.name = dbname)
      Except.ok ""

/-- Environment of one run of `resourceDbUserDelete`. -/
structure UserDeleteEnv where
  listing : ListResult User
  deleteResult : Except String Unit
  deriving Repr

/-- Embeds `resourceDbUserDelete` (src/unnamed/part_001, lines 148-183):
identical shape to the database delete — no error check on `users.Delete`,
no poll, identifier cleared unconditionally after a successful listing. -/
def resourceDbUserDelete (username : String) (env : UserDeleteEnv) : Except String String :=
  match env.listing with
  | Except.error e => Except.error ("Unable to retrieve users: " ++ e)
  | Except.ok allUsers =>
      let _userExists := allUsers.any (fun v => v.name = username)
      Except.ok ""

/-- Environment of one run of `resourceDatabaseInstanceDelete`. -/
structure InstanceDeleteEnv where
  deleteResult : Except String Unit
  gets : List (GetResult Instance)
  deriving Repr

/-- Embeds `resourceDatabaseInstanceDelete`
(src/openstack/resource_openstack_db_instance.go, lines 156-195, identical
in src/unnamed/part_003): an error of `instances.Delete` is returned; then
the flow polls with pending \x7bACTIVE, SHUTOFF\x7d and target \x7bdeleted\x7d and
clears the identifier only on poll success. -/
def resourceDatabaseInstanceDelete (id : String) (env : InstanceDeleteEnv) :
    Except String String :=
  match env.deleteResult with
  | Except.error e => Except.error ("Error deleting cloud database instance: " ++ e)
  | Except.ok _ =>
      match WaitForState ["ACTIVE", "SHUTOFF"] ["deleted"]
          (env.gets.map InstanceStateRefreshFunc) with
      | WaitResult.success _ => Except.ok ""
      | w => Except.error ("Error waiting for instance (" ++ id ++ ") to delete: " ++ waitMsg w)

/-- Environment of one run of `resourceDbConfigGroupDelete`. -/
structure CgDeleteEnv where
  deleteResult : Except String Unit
  gets : List (GetResult ConfigZ)
  deriving Repr

/-- Embeds `resourceDbConfigGroupDelete` (src/unnamed/part_002, lines
185-216; the copy in src/openstack/resource_openstack_db_config_group.go
differs only in sentinel casing): an error of `configurations.Delete`,
including a not-found error for an already absent group, is returned; then
the flow polls with pending \x7bACTIVE, SHUTOFF\x7d and target \x7bDELETED\x7d and
clears the identifier only on poll success. -/
def resourceDbConfigGroupDelete (id : String) (env : CgDeleteEnv) : Except String String :=
  match env.deleteResult with
  | Except.error e => Except.error ("Error deleting cloud configuration: " ++ e)
  | Except.ok _ =>
      match WaitForState ["ACTIVE", "SHUTOFF"] ["DELETED"]
          (env.gets.map DbConfigGroupStateRefreshFuncP2) with
      | WaitResult.success _ => Except.ok ""
      | w => Except.error ("Error waiting for configuration (" ++ id ++ ") to delete: "
               ++ waitMsg w)

/-! ### Read flows -/

/-- Modelled from the spec: the shared helper `CheckDeleted(d, err, kind)`
(referenced by the instance and configuration-group Read functions but not
among the provided sources). Per section 4.2, a distinguishable not-found
error clears the identifier and reports success so the caller drops the
object from tracked state; any other error is surfaced. Returns the new
identifier on success. -/
def CheckDeleted (kind msg : String) (isNotFound : Bool) : Except String String :=
  if isNotFound then Except.ok ""
  else Except.error ("Error retrieving " ++ kind ++ ": " ++ msg)

/-- Embeds `resourceDatabaseInstanceRead`
(src/openstack/resource_openstack_db_instance.go, lines 134-154): a found
instance keeps the identifier and re-derives the attributes from the
payload; a get error goes through `CheckDeleted`. Returns the persisted
identifier together with the payload the attributes were set from. -/
def resourceDatabaseInstanceRead (id : String) (g : GetResult Instance) :
    Except String (String × Option Instance) :=
  match g with
  | GetResult.found i => Except.ok (id, some i)
  | GetResult.notFound => (CheckDeleted "instance" "" true).map (fun newId => (newId, none))
  | GetResult.getError e => (CheckDeleted "instance" e false).map (fun newId => (newId, none))

/-- Embeds `resourceDbConfigGroupRead` (src/unnamed/part_002, lines 164-183,
identical in src/openstack/resource_openstack_db_config_group.go). -/
def resourceDbConfigGroupRead (id : String) (g : GetResult ConfigZ) :
    Except String (String × Option ConfigZ) :=
  match g with
  | GetResult.found cgroup => Except.ok (id, some cgroup)
  | GetResult.notFound => (CheckDeleted "configuration" "" true).map (fun newId => (newId, none))
  | GetResult.getError e => (CheckDeleted "configuration" e false).map (fun newId => (newId, none))

/-- Locally persisted state of a database resource: identifier plus the
attributes a Read may overwrite. -/
structure DbReadState where
  id : String
  name : String
  charset : String
  collate : String
  deriving DecidableEq, Repr

/-- Embeds `resourceDatabaseRead`
(src/openstack/resource_openstack_database.go, lines 100-129): a failed
listing is a generic error; a successful listing is scanned for the
declared name, a match overwrites the attributes, and a missing name leaves
the whole state — identifier included — untouched and returns success. -/
def resourceDatabaseRead (st : DbReadState) (listing : ListResult Database) :
    Except String DbReadState :=
  match listing with
  | Except.error e => Except.error ("Unable to retrieve databases, pages: " ++ e)
  | Except.ok allDatabases =>
      match allDatabases.find? (fun v => v.name = st.name) with
      | some v => Except.ok { st with name := v.name, charset := v.charset, collate := v.collate }
      | none => Except.ok st

/-- Locally persisted state of a user resource. -/
structure UserReadState where
  id : String
  name : String
  password : String
  databases : List String
  deriving DecidableEq, Repr

/-- Embeds `resourceDbUserRead` (src/unnamed/part_001, lines 117-146): the
user analogue of the database Read, with the same silent success when the
name is absent from the listing. -/
def resourceDbUserRead (st : UserReadState) (listing : ListResult User) :
    Except String UserReadState :=
  match listing with
  | Except.error e => Except.error ("Unable to retrieve users, pages: " ++ e)
  | Except.ok allUsers =>
      match allUsers.find? (fun v => v.name = st.name) with
      | some v => Except.ok { st with name := v.name, password := v.password,
                                      databases := v.databases }
      | none => Except.ok st

/-! ### Instance create-request marshalling (src/unnamed/part_003) -/

/-- A declared `network` block of the instance schema. -/
structure NetworkBlock where
  uuid : String
  port : String
  fixed_ip_v4 : String
  fixed_ip_v6 : String
  deriving DecidableEq, Repr

/-- `instances.NetworkOpts` of the wire payload. -/
structure NetworkOpts where
  uuid : String
  port : String
  v4FixedIP : String
  v6FixedIP : String
  deriving DecidableEq, Repr

/-- A declared `database` block of the instance schema. -/
structure DatabaseBlock where
  name : String
  charset : String
  collate : String
  deriving DecidableEq, Repr

/-- A declared `user` block of the instance schema. -/
structure UserBlock where
  name : String
  password : String
  host : String
  databases : List String
  deriving DecidableEq, Repr

/-- `users.CreateOpts` of the wire payload; the nested databases are
`databases.CreateOpts` records with only the name set. -/
structure UserOpts where
  name : String
  password : String
  host : String
  databases : List Database
  deriving DecidableEq, Repr

/-- The declared configuration of an instance resource
(src/unnamed/part_003 schema, lines 16-159). -/
structure InstanceDecl where
  name : String
  flavor_id : String
  size : Int
  datastore : List (String × String)
  network : List NetworkBlock
  database : List DatabaseBlock
  user : List UserBlock
  deriving DecidableEq, Repr

/-- `instances.CreateOpts`, the wire payload of the instance create call. -/
structure InstanceCreateOpts where
  flavorRef : String
  name : String
  size : Int
  datastore : String × String
  networks : List NetworkOpts
  databases : List Database
  users : List UserOpts
  deriving DecidableEq, Repr

/-- Mapping of one declared network block into `instances.NetworkOpts`
(src/unnamed/part_003, lines 190-195). -/
def netOptsOf (n : NetworkBlock) : NetworkOpts :=
  { uuid := n.uuid, port := n.port, v4FixedIP := n.fixed_ip_v4, v6FixedIP := n.fixed_ip_v6 }

/-- Mapping of one declared database block into `databases.CreateOpts`
(src/unnamed/part_003, lines 205-209). -/
def dbOptsOf (b : DatabaseBlock) : Database :=
  { name := b.name, charset := b.charset, collate := b.collate }

/-- Embeds `getDatabases` (src/unnamed/part_003, lines 349-360): every name
of the user's databases set becomes a `databases.CreateOpts` with only the
name populated. -/
def getDatabases : List String → List Database
  | [] => []
  | db :: rest => { name := db, charset := "", collate := "" } :: getDatabases rest

/-- Mapping of one declared user block into `users.CreateOpts`
(src/unnamed/part_003, lines 222-227). -/
def userOptsOf (u : UserBlock) : UserOpts :=
  { name := u.name, password := u.password, host := u.host,
    databases := getDatabases u.databases }

/-- Embeds the request construction of `resourceDatabaseInstanceCreate`
(src/unnamed/part_003, lines 168-231): each `d.GetOk` on a list yields
nothing for an empty list, and otherwise the source reads only element [0]
of the datastore, network, database and user lists. -/
def buildInstanceCreateOpts (d : InstanceDecl) : InstanceCreateOpts :=
  { flavorRef := d.flavor_id
    name := d.name
    size := d.size
    datastore := d.datastore.headD ("", "")
    networks :=
      match d.network with
      | [] => []
      | n :: _ => [netOptsOf n]
    databases :=
      match d.database with
      | [] => []
      | b :: _ => [dbOptsOf b]
    users :=
      match d.user with
      | [] => []
      | u :: _ => [userOptsOf u] }

/-! ### Helper lemmas -/

/-- A successful wait reached a target state that some tick actually
reported. -/
theorem wait_success_mem (pending target : List String) (outs : List RefreshOutcome)
    (s : String) (h : WaitForState pending target outs = WaitResult.success s) :
    s ∈ target ∧ RefreshOutcome.ok s ∈ outs := by
  induction outs with
  | nil => simp [WaitForState] at h
  | cons o rest ih =>
      cases o with
      | err m => simp [WaitForState] at h
      | ok st =>
          by_cases ht : st ∈ target
          · rw [WaitForState, if_pos ht] at h
            cases h
            exact ⟨ht, List.mem_cons_self _ _⟩
          · by_cases hp : st ∈ pending
            · rw [WaitForState, if_neg ht, if_pos hp] at h
              rcases ih h with ⟨h1, h2⟩
              exact ⟨h1, List.mem_cons_of_mem _ h2⟩
            · rw [WaitForState, if_neg ht, if_neg hp] at h
              cases h

/-- A successful instance delete-poll observed the sentinel state
"deleted", and only a 404 tick can have reported it when every fetched
payload carries a status of the remote lifecycle enum. -/
theorem instance_wait_deleted_from_notFound (gets : List (GetResult Instance))
    (hstat : ∀ i : Instance, GetResult.found i ∈ gets →
      i.status ∈ (["BUILD", "ACTIVE", "SHUTOFF", "ERROR"] : List String))
    (s : String)
    (h : WaitForState ["ACTIVE", "SHUTOFF"] ["deleted"]
      (gets.map InstanceStateRefreshFunc) = WaitResult.success s) :
    GetResult.notFound ∈ gets := by
  rcases wait_success_mem _ _ _ _ h with ⟨hs, hmem⟩
  simp only [List.mem_singleton] at hs
  subst hs
  rcases List.mem_map.mp hmem with ⟨g, hg, hgeq⟩
  cases g with
  | notFound => exact hg
  | getError m => simp [InstanceStateRefreshFunc] at hgeq
  | found i =>
      have hi := hstat i hg
      simp only [InstanceStateRefreshFunc] at hgeq
      by_cases he : i.status = "error"
      · rw [if_pos he] at hgeq
        cases hgeq
      · rw [if_neg he] at hgeq
        injection hgeq with hst
        rw [hst] at hi
        simp at hi

/-- A successful configuration-group delete-poll observed the sentinel
state "DELETED", which only a 404 tick can have reported. -/
theorem cg_wait_deleted_from_notFound (gets : List (GetResult ConfigZ)) (s : String)
    (h : WaitForState ["ACTIVE", "SHUTOFF"] ["DELETED"]
      (gets.map DbConfigGroupStateRefreshFuncP2) = WaitResult.success s) :
    GetResult.notFound ∈ gets := by
  rcases wait_success_mem _ _ _ _ h with ⟨hs, hmem⟩
  simp only [List.mem_singleton] at hs
  subst hs
  rcases List.mem_map.mp hmem with ⟨g, hg, hgeq⟩
  cases g with
  | notFound => exact hg
  | getError m => simp [DbConfigGroupStateRefreshFuncP2] at hgeq
  | found c => simp [DbConfigGroupStateRefreshFuncP2] at hgeq

/-! ### Claim theorems -/

/-- C1: evaluation of the code at the spec's scenario. With child listings
[] then [\x7bname:"app"\x7d] (and likewise a user listing [] then
[\x7bname:"bob"\x7d]), the child-scan refresh function returns an error — not the
pending state — on the empty tick, so WaitForState aborts on the first
probe with the child-retrieval error instead of staying alive and
succeeding on the second probe, and a child that never appears fails on the
first probe rather than after the poll window. -/
theorem C1_childScan_abortsOnFirstMissingTick :
    WaitForState ["BUILD"] ["ACTIVE"]
      (([Except.ok [], Except.ok [{ name := "app", charset := "", collate := "" }]] :
          List (ListResult Database)).map (DatabaseStateRefreshFunc "app"))
      = WaitResult.refreshError "Error retrieving database app status" ∧
    WaitForState ["BUILD"] ["ACTIVE"]
      (([Except.ok [],
         Except.ok [{ name := "bob", password := "x", host := "%", databases := [] }]] :
          List (ListResult User)).map (DbUserStateRefreshFunc "bob"))
      = WaitResult.refreshError "Error retrieving user bob status" := by
  exact ⟨rfl, rfl⟩

/-- C2: a rejected create call is surfaced for Instance and
ConfigurationGroup, but the Database and User create flows discard the
result of the batch create call entirely: with the remote rejecting the
create ("quota exceeded") and the child consequently never listed, the
caller receives the child-scan poll error, and the rejection reaches no
caller. -/
theorem C2_create_rejection_surfacing :
    resourceDatabaseCreate "I1" "app"
      ⟨Except.error "quota exceeded", [Except.ok []]⟩
      = Except.error
          "Error waiting for database (Error retrieving database app status) to become ready" ∧
    resourceDbUserCreate "I1" "bob"
      ⟨Except.error "quota exceeded", [Except.ok []]⟩
      = Except.error
          "Error waiting for user (Error retrieving user bob status) to be created" ∧
    resourceDatabaseInstanceCreate ⟨Except.error "quota exceeded", []⟩
      = Except.error "Error creating cloud database instance: quota exceeded" ∧
    resourceDbConfigGroupCreate ⟨Except.error "quota exceeded", []⟩
      = Except.error "Error creating cloud database configuration: quota exceeded" := by
  exact ⟨rfl, rfl, rfl, rfl⟩

/-- C10: both copies of the ConfigurationGroup status probe map every
successful fetch — whatever the payload — to "ACTIVE" and a 404 to the
absent sentinel of their casing, so a create poll with pending \x7bBUILD\x7d and
target \x7bACTIVE\x7d succeeds on the first probe whenever the group exists, and
no probe outcome ever reports BUILD, SHUTOFF, or an error status for an
existing group. -/
theorem C10_configGroup_probe_ignoresRemoteStatus :
    (∀ c : ConfigZ,
      DbConfigGroupStateRefreshFunc (GetResult.found c) = RefreshOutcome.ok "ACTIVE") ∧
    (∀ c : ConfigZ,
      DbConfigGroupStateRefreshFuncP2 (GetResult.found c) = RefreshOutcome.ok "ACTIVE") ∧
    DbConfigGroupStateRefreshFunc GetResult.notFound = RefreshOutcome.ok "deleted" ∧
    DbConfigGroupStateRefreshFuncP2 GetResult.notFound = RefreshOutcome.ok "DELETED" ∧
    (∀ (c : ConfigZ) (rest : List (GetResult ConfigZ)),
      WaitForState ["BUILD"] ["ACTIVE"]
        ((GetResult.found c :: rest).map DbConfigGroupStateRefreshFuncP2)
        = WaitResult.success "ACTIVE") ∧
    (∀ (c : ConfigZ) (rest : List (GetResult ConfigZ)),
      WaitForState ["BUILD"] ["ACTIVE"]
        ((GetResult.found c :: rest).map DbConfigGroupStateRefreshFunc)
        = WaitResult.success "ACTIVE") := by
  refine ⟨fun c => rfl, fun c => rfl, rfl, rfl, fun c rest => rfl, fun c rest => rfl⟩

/-- C3 counterexample: the Database delete flow clears the persisted
identifier even in a run where the last listing still contains the database
and the delete call itself failed — nothing confirmed the remote object's
absence. -/
theorem C3_counterexample_databaseDelete_clearsWithoutAbsence :
    resourceDatabaseDelete "app"
      ⟨Except.ok [{ name := "app", charset := "utf8", collate := "utf8_general_ci" }],
       Except.error "backend unavailable"⟩
      = Except.ok "" ∧
    ([{ name := "app", charset := "utf8", collate := "utf8_general_ci" }] :
      List Database).any (fun v => v.name = "app") = true := by
  exact ⟨rfl, rfl⟩

/-- C3 amended: the Instance and ConfigurationGroup delete flows clear the
identifier only after the delete poll observed a 404 tick (for the instance
probe, under the assumption that fetched payloads carry a status of the
remote lifecycle enum); the Database and User delete flows clear the
identifier unconditionally whenever the child listing call succeeds,
without any delete poll and regardless of the delete call's outcome. -/
theorem C3_amended_idClearedOnlyAfterAbsence :
    (∀ (id : String) (env : InstanceDeleteEnv),
      (∀ i : Instance, GetResult.found i ∈ env.gets →
        i.status ∈ (["BUILD", "ACTIVE", "SHUTOFF", "ERROR"] : List String)) →
      resourceDatabaseInstanceDelete id env = Except.ok "" →
      GetResult.notFound ∈ env.gets) ∧
    (∀ (id : String) (env : CgDeleteEnv),
      resourceDbConfigGroupDelete id env = Except.ok "" →
      GetResult.notFound ∈ env.gets) ∧
    (∀ (dbname : String) (dbs : List Database) (delRes : Except String Unit),
      resourceDatabaseDelete dbname ⟨Except.ok dbs, delRes⟩ = Except.ok "") ∧
    (∀ (username : String) (us : List User) (delRes : Except String Unit),
      resourceDbUserDelete username ⟨Except.ok us, delRes⟩ = Except.ok "") := by
  refine ⟨?_, ?_, fun _ _ _ => rfl, fun _ _ _ => rfl⟩
  · intro id env hstat h
    cases hdel : env.deleteResult with
    | error e => simp [resourceDatabaseInstanceDelete, hdel] at h
    | ok u =>
        cases hw : WaitForState ["ACTIVE", "SHUTOFF"] ["deleted"]
            (env.gets.map InstanceStateRefreshFunc) with
        | success s => exact instance_wait_deleted_from_notFound env.gets hstat s hw
        | refreshError m => simp [resourceDatabaseInstanceDelete, hdel, hw] at h
        | unexpectedState s => simp [resourceDatabaseInstanceDelete, hdel, hw] at h
        | timeout => simp [resourceDatabaseInstanceDelete, hdel, hw] at h
  · intro id env h
    cases hdel : env.deleteResult with
    | error e => simp [resourceDbConfigGroupDelete, hdel] at h
    | ok u =>
        cases hw : WaitForState ["ACTIVE", "SHUTOFF"] ["DELETED"]
            (env.gets.map DbConfigGroupStateRefreshFuncP2) with
        | success s => exact cg_wait_deleted_from_notFound env.gets s hw
        | refreshError m => simp [resourceDbConfigGroupDelete, hdel, hw] at h
        | unexpectedState s => simp [resourceDbConfigGroupDelete, hdel, hw] at h
        | timeout => simp [resourceDbConfigGroupDelete, hdel, hw] at h

/-- C3 witness: the amended theorem applied at concrete delete runs whose
polls observe a 404. -/
theorem C3_amended_idClearedOnlyAfterAbsence_witness :
    GetResult.notFound ∈
      (⟨Except.ok (), [GetResult.notFound]⟩ : InstanceDeleteEnv).gets ∧
    GetResult.notFound ∈
      (⟨Except.ok (), [GetResult.found { id := "cg1", name := "g", description := "d" },
                       GetResult.notFound]⟩ : CgDeleteEnv).gets := by
  constructor
  · exact C3_amended_idClearedOnlyAfterAbsence.1 "I1" ⟨Except.ok (), [GetResult.notFound]⟩
      (by intro i hi; simp at hi) rfl
  · exact C3_amended_idClearedOnlyAfterAbsence.2.1 "C1"
      ⟨Except.ok (), [GetResult.found { id := "cg1", name := "g", description := "d" },
                      GetResult.notFound]⟩ rfl

/-- C4 counterexample: deleting a ConfigurationGroup that is already absent
— the status probe maps the 404 to the absent sentinel — still returns an
error, because the not-found error of the Delete API call itself is
surfaced unconditionally before the poll starts. -/
theorem C4_counterexample_configGroupDelete_absentErrors :
    DbConfigGroupStateRefreshFuncP2 GetResult.notFound = RefreshOutcome.ok "DELETED" ∧
    resourceDbConfigGroupDelete "C1"
      ⟨Except.error "Resource not found", [GetResult.notFound]⟩
      = Except.error "Error deleting cloud configuration: Resource not found" := by
  exact ⟨rfl, rfl⟩

/-- C4 amended: absence observed during a delete poll is the success
condition (the poll over Instance and ConfigurationGroup succeeds
immediately on a 404 tick), and the Database and User delete flows never
fail once the listing call succeeds; but the Instance and
ConfigurationGroup flows surface any error of the Delete API call itself,
including the not-found error of deleting an already absent object. -/
theorem C4_amended_deleteAbsenceHandling :
    (∀ (dbname : String) (dbs : List Database) (delRes : Except String Unit),
      resourceDatabaseDelete dbname ⟨Except.ok dbs, delRes⟩ = Except.ok "") ∧
    (∀ (username : String) (us : List User) (delRes : Except String Unit),
      resourceDbUserDelete username ⟨Except.ok us, delRes⟩ = Except.ok "") ∧
    (∀ (id : String) (rest : List (GetResult ConfigZ)),
      resourceDbConfigGroupDelete id ⟨Except.ok (), GetResult.notFound :: rest⟩
        = Except.ok "") ∧
    (∀ (id : String) (rest : List (GetResult Instance)),
      resourceDatabaseInstanceDelete id ⟨Except.ok (), GetResult.notFound :: rest⟩
        = Except.ok "") ∧
    (∀ (id e : String) (gets : List (GetResult ConfigZ)),
      resourceDbConfigGroupDelete id ⟨Except.error e, gets⟩
        = Except.error ("Error deleting cloud configuration: " ++ e)) := by
  exact ⟨fun _ _ _ => rfl, fun _ _ _ => rfl, fun _ _ => rfl, fun _ _ => rfl, fun _ _ _ => rfl⟩

/-- C5 counterexample: a create poll over an existing configuration group
succeeds on the first probe no matter what condition the group is in — the
probe discards the fetched payload entirely (its status check is commented
out in the source), so no fatal remote condition ever fails this poll. -/
theorem C5_counterexample_configGroupPoll_neverFailsOnRemoteCondition :
    WaitForState ["BUILD"] ["ACTIVE"]
      (([GetResult.found { id := "cg1", name := "grp", description := "errored group" }] :
        List (GetResult ConfigZ)).map DbConfigGroupStateRefreshFuncP2)
      = WaitResult.success "ACTIVE" := rfl

/-- C5 amended: the Instance poll fails immediately on a probe tick whose
payload carries the fatal status "error", and immediately reports an
unexpected state for any status outside pending, target and "error"; the
ConfigurationGroup probe, by contrast, reports "ACTIVE" for every existing
group, so its create poll succeeds instead of failing on any remote
condition. -/
theorem C5_amended_fatalStateHandling :
    (∀ (i : Instance) (rest : List (GetResult Instance)),
      i.status = "error" →
      WaitForState ["BUILD"] ["ACTIVE"]
        ((GetResult.found i :: rest).map InstanceStateRefreshFunc)
        = WaitResult.refreshError "There was an error creating the instance.") ∧
    (∀ (i : Instance) (rest : List (GetResult Instance)),
      i.status ∉ (["BUILD", "ACTIVE", "error"] : List String) →
      WaitForState ["BUILD"] ["ACTIVE"]
        ((GetResult.found i :: rest).map InstanceStateRefreshFunc)
        = WaitResult.unexpectedState i.status) ∧
    (∀ (c : ConfigZ) (rest : List (GetResult ConfigZ)),
      WaitForState ["BUILD"] ["ACTIVE"]
        ((GetResult.found c :: rest).map DbConfigGroupStateRefreshFuncP2)
        = WaitResult.success "ACTIVE") := by
  refine ⟨?_, ?_, fun c rest => rfl⟩
  · intro i rest h
    simp [WaitForState, InstanceStateRefreshFunc, h]
  · intro i rest h
    simp only [List.mem_cons, List.not_mem_nil, or_false, not_or] at h
    obtain ⟨h1, h2, h3⟩ := h
    simp [WaitForState, InstanceStateRefreshFunc, h1, h2, h3]

/-- C5 witness: the amended theorem applied at an instance whose status is
the fatal "error" and at one stuck in "SHUTOFF" during a create poll. -/
theorem C5_amended_fatalStateHandling_witness :
    WaitForState ["BUILD"] ["ACTIVE"]
      (([GetResult.found { id := "I1", name := "inst", status := "error" }] :
        List (GetResult Instance)).map InstanceStateRefreshFunc)
      = WaitResult.refreshError "There was an error creating the instance." ∧
    WaitForState ["BUILD"] ["ACTIVE"]
      (([GetResult.found { id := "I1", name := "inst", status := "SHUTOFF" }] :
        List (GetResult Instance)).map InstanceStateRefreshFunc)
      = WaitResult.unexpectedState "SHUTOFF" := by
  constructor
  · exact C5_amended_fatalStateHandling.1 ⟨"I1", "inst", "error"⟩ [] rfl
  · exact C5_amended_fatalStateHandling.2.1 ⟨"I1", "inst", "SHUTOFF"⟩ [] (by decide)

/-- C6 counterexample: a Database Read whose child has disappeared from the
parent's listing returns success with the identifier and all stale
attributes left in place — no NotFound signal, nothing dropped. -/
theorem C6_counterexample_databaseRead_silentSuccess :
    resourceDatabaseRead ⟨"I1", "app", "utf8", "utf8_general_ci"⟩ (Except.ok [])
      = Except.ok ⟨"I1", "app", "utf8", "utf8_general_ci"⟩ := rfl

/-- C6 amended: the Instance and ConfigurationGroup Reads route a 404
through CheckDeleted, clearing the identifier and succeeding so the caller
drops the object, and surface other get errors; the Database (and User)
Reads instead return a generic error when the listing call fails and
silently succeed with identifier and attributes untouched when the child is
absent from the listing. -/
theorem C6_amended_readDisappearedObject :
    (∀ id : String,
      resourceDatabaseInstanceRead id GetResult.notFound = Except.ok ("", none)) ∧
    (∀ id : String,
      resourceDbConfigGroupRead id GetResult.notFound = Except.ok ("", none)) ∧
    (∀ id e : String,
      resourceDatabaseInstanceRead id (GetResult.getError e)
        = Except.error ("Error retrieving instance: " ++ e)) ∧
    (∀ (st : DbReadState) (dbs : List Database),
      (∀ v ∈ dbs, v.name ≠ st.name) →
      resourceDatabaseRead st (Except.ok dbs) = Except.ok st) ∧
    (∀ (st : UserReadState) (e : String),
      resourceDbUserRead st (Except.error e)
        = Except.error ("Unable to retrieve users, pages: " ++ e)) := by
  refine ⟨fun _ => rfl, fun _ => rfl, fun _ _ => rfl, ?_, fun _ _ => rfl⟩
  intro st dbs h
  have hfind : dbs.find? (fun v => v.name = st.name) = none := by
    rw [List.find?_eq_none]
    intro x hx
    simpa using h x hx
  simp [resourceDatabaseRead, hfind]

/-- C6 witness: the amended theorem applied at a Database Read over a
listing that no longer contains the declared name. -/
theorem C6_amended_readDisappearedObject_witness :
    resourceDatabaseRead ⟨"I1", "app", "utf8", "utf8_general_ci"⟩
      (Except.ok [{ name := "other", charset := "", collate := "" }])
      = Except.ok ⟨"I1", "app", "utf8", "utf8_general_ci"⟩ := by
  exact C6_amended_readDisappearedObject.2.2.2.1 ⟨"I1", "app", "utf8", "utf8_general_ci"⟩
    [{ name := "other", charset := "", collate := "" }] (by decide)

/-- Looking up the key just assigned yields the assigned value. -/
theorem mapGet_mapSet_self (m : List (String × ConfigValue)) (k : String) (v : ConfigValue) :
    mapGet (mapSet m k v) k = some v := by
  induction m with
  | nil => simp [mapSet, mapGet]
  | cons p rest ih =>
      obtain ⟨k0, v0⟩ := p
      by_cases h : k0 = k
      · simp [mapSet, mapGet, h]
      · simp [mapSet, mapGet, h, ih]

/-- Assigning a different key leaves a lookup unchanged. -/
theorem mapGet_mapSet_ne (m : List (String × ConfigValue)) (k k' : String)
    (v : ConfigValue) (h : k' ≠ k) : mapGet (mapSet m k' v) k = mapGet m k := by
  induction m with
  | nil => simp [mapSet, mapGet, h]
  | cons p rest ih =>
      obtain ⟨k0, v0⟩ := p
      by_cases h0 : k0 = k'
      · subst h0
        simp [mapSet, mapGet, h]
      · by_cases h1 : k0 = k
        · simp [mapSet, mapGet, h0, h1, Ne.symm h]
        · simp [mapSet, mapGet, h0, h1, ih]

/-- Folding the values loop over keys a lookup key does not occur in leaves
that lookup unchanged. -/
theorem mapGet_valuesFold_not_mem (cfg : List (String × String)) :
    ∀ (acc : List (String × ConfigValue)) (k : String), k ∉ cfg.map Prod.fst →
      mapGet (cfg.foldl (fun values z => mapSet values z.1 (coerceConfigValue z.2)) acc) k
        = mapGet acc k := by
  induction cfg with
  | nil => intro acc k _; rfl
  | cons z rest ih =>
      intro acc k hk
      simp only [List.map_cons, List.mem_cons, not_or] at hk
      rw [List.foldl_cons, ih _ k hk.2, mapGet_mapSet_ne _ _ _ _ (Ne.symm hk.1)]

/-- Every declared entry survives the values fold when the declared keys
are distinct. -/
theorem mapGet_valuesFold_mem (cfg : List (String × String)) :
    ∀ (acc : List (String × ConfigValue)) (k v : String),
      (cfg.map Prod.fst).Nodup → (k, v) ∈ cfg →
      mapGet (cfg.foldl (fun values z => mapSet values z.1 (coerceConfigValue z.2)) acc) k
        = some (coerceConfigValue v) := by
  induction cfg with
  | nil => intro acc k v _ hmem; cases hmem
  | cons z rest ih =>
      intro acc k v hnd hmem
      obtain ⟨k0, v0⟩ := z
      simp only [List.map_cons, List.nodup_cons] at hnd
      rw [List.foldl_cons]
      rcases List.mem_cons.mp hmem with heq | hmem'
      · cases heq
        rw [mapGet_valuesFold_not_mem rest _ k hnd.1, mapGet_mapSet_self]
      · exact ih _ k v hnd.2 hmem'

/-- C7 counterexample: the values construction of
src/openstack/resource_openstack_db_config_group.go transmits the declared
value "5" as the unmodified string, not as the integer 5 (and drops every
element after the first). -/
theorem C7_counterexample_v1_noCoercion :
    configGroupValuesV1 [("connect_timeout", "5")]
      = [("connect_timeout", ConfigValue.str "5")] ∧
    ConfigValue.str "5" ≠ ConfigValue.int 5 := by
  exact ⟨rfl, by decide⟩

/-- C7 amended: in the src/unnamed/part_002 create flow every declared
configuration element is transmitted with its value coerced — an
Atoi-parseable string as the integer, any other string unchanged — while
the src/openstack copy transmits only the first element and always as the
raw string. -/
theorem C7_amended_valueCoercion :
    (∀ (cfg : List (String × String)) (k v : String),
      (cfg.map Prod.fst).Nodup → (k, v) ∈ cfg →
      mapGet (configGroupValues cfg) k = some (coerceConfigValue v)) ∧
    (∀ (s : String) (n : Int), atoi? s = some n → coerceConfigValue s = ConfigValue.int n) ∧
    (∀ s : String, atoi? s = none → coerceConfigValue s = ConfigValue.str s) ∧
    (∀ (k v : String) (rest : List (String × String)),
      configGroupValuesV1 ((k, v) :: rest) = [(k, ConfigValue.str v)]) := by
  refine ⟨?_, ?_, ?_, fun _ _ _ => rfl⟩
  · intro cfg k v hnd hmem
    exact mapGet_valuesFold_mem cfg [] k v hnd hmem
  · intro s n h
    simp [coerceConfigValue, h]
  · intro s h
    simp [coerceConfigValue, h]

/-- C7 witness: the amended theorem applied at the spec's two example
values, declared together in one configuration list. -/
theorem C7_amended_valueCoercion_witness :
    mapGet (configGroupValues
        [("connect_timeout", "5"), ("collation_server", "latin1_swedish_ci")])
      "connect_timeout" = some (ConfigValue.int 5) ∧
    mapGet (configGroupValues
        [("connect_timeout", "5"), ("collation_server", "latin1_swedish_ci")])
      "collation_server" = some (ConfigValue.str "latin1_swedish_ci") := by
  constructor
  · have h := C7_amended_valueCoercion.1
      [("connect_timeout", "5"), ("collation_server", "latin1_swedish_ci")]
      "connect_timeout" "5" (by decide) (by decide)
    rw [h]
    rfl
  · have h := C7_amended_valueCoercion.1
      [("connect_timeout", "5"), ("collation_server", "latin1_swedish_ci")]
      "collation_server" "latin1_swedish_ci" (by decide) (by decide)
    rw [h]
    rfl

/-- C8 counterexample: the Database and User create flows persist the
declared parent instance reference "I1" as the resource identifier; the
batch create calls of these kinds return no object identifier at all, so
the persisted value is not an ID returned by the create operation for the
created object. -/
theorem C8_counterexample_childResources_persistParentId :
    resourceDatabaseCreate "I1" "app"
      ⟨Except.ok (), [Except.ok [{ name := "app", charset := "", collate := "" }]]⟩
      = Except.ok "I1" ∧
    resourceDbUserCreate "I1" "bob"
      ⟨Except.ok (),
       [Except.ok [{ name := "bob", password := "x", host := "%", databases := [] }]]⟩
      = Except.ok "I1" := by
  exact ⟨rfl, rfl⟩

/-- C8 amended: the Instance and ConfigurationGroup create flows persist
exactly the object ID the remote create call returned, while the Database
and User create flows persist the declared parent instance identifier. -/
theorem C8_amended_persistedIdentity :
    (∀ (env : InstanceCreateEnv) (r : String),
      resourceDatabaseInstanceCreate env = Except.ok r →
      ∃ inst : Instance, env.createResult = Except.ok inst ∧ r = inst.id) ∧
    (∀ (env : CgCreateEnv) (r : String),
      resourceDbConfigGroupCreate env = Except.ok r →
      ∃ cgroup : ConfigZ, env.createResult = Except.ok cgroup ∧ r = cgroup.id) ∧
    (∀ (instance_id dbname : String) (env : DbCreateEnv) (r : String),
      resourceDatabaseCreate instance_id dbname env = Except.ok r → r = instance_id) ∧
    (∀ (instance_id username : String) (env : UserCreateEnv) (r : String),
      resourceDbUserCreate instance_id username env = Except.ok r → r = instance_id) := by
  refine ⟨?_, ?_, ?_, ?_⟩
  · intro env r h
    cases hc : env.createResult with
    | error e => simp [resourceDatabaseInstanceCreate, hc] at h
    | ok inst =>
        refine ⟨inst, rfl, ?_⟩
        cases hw : WaitForState ["BUILD"] ["ACTIVE"] (env.gets.map InstanceStateRefreshFunc) with
        | success s =>
            simp only [resourceDatabaseInstanceCreate, hc, hw] at h
            injection h with h
            exact h.symm
        | refreshError m => simp [resourceDatabaseInstanceCreate, hc, hw] at h
        | unexpectedState s => simp [resourceDatabaseInstanceCreate, hc, hw] at h
        | timeout => simp [resourceDatabaseInstanceCreate, hc, hw] at h
  · intro env r h
    cases hc : env.createResult with
    | error e => simp [resourceDbConfigGroupCreate, hc] at h
    | ok cgroup =>
        refine ⟨cgroup, rfl, ?_⟩
        cases hw : WaitForState ["BUILD"] ["ACTIVE"]
            (env.gets.map DbConfigGroupStateRefreshFuncP2) with
        | success s =>
            simp only [resourceDbConfigGroupCreate, hc, hw] at h
            injection h with h
            exact h.symm
        | refreshError m => simp [resourceDbConfigGroupCreate, hc, hw] at h
        | unexpectedState s => simp [resourceDbConfigGroupCreate, hc, hw] at h
        | timeout => simp [resourceDbConfigGroupCreate, hc, hw] at h
  · intro instance_id dbname env r h
    cases hw : WaitForState ["BUILD"] ["ACTIVE"]
        (env.listings.map (DatabaseStateRefreshFunc dbname)) with
    | success s =>
        simp only [resourceDatabaseCreate, hw] at h
        injection h with h
        exact h.symm
    | refreshError m => simp [resourceDatabaseCreate, hw] at h
    | unexpectedState s => simp [resourceDatabaseCreate, hw] at h
    | timeout => simp [resourceDatabaseCreate, hw] at h
  · intro instance_id username env r h
    cases hw : WaitForState ["BUILD"] ["ACTIVE"]
        (env.listings.map (DbUserStateRefreshFunc username)) with
    | success s =>
        simp only [resourceDbUserCreate, hw] at h
        injection h with h
        exact h.symm
    | refreshError m => simp [resourceDbUserCreate, hw] at h
    | unexpectedState s => simp [resourceDbUserCreate, hw] at h
    | timeout => simp [resourceDbUserCreate, hw] at h

/-- C8 witness: the amended theorem applied at a concrete instance create
run whose remote returned the ID "uuid-1". -/
theorem C8_amended_persistedIdentity_witness :
    ∃ inst : Instance,
      (⟨Except.ok { id := "uuid-1", name := "inst", status := "BUILD" },
        [GetResult.found { id := "uuid-1", name := "inst", status := "ACTIVE" }]⟩ :
        InstanceCreateEnv).createResult = Except.ok inst ∧ "uuid-1" = inst.id := by
  exact C8_amended_persistedIdentity.1
    ⟨Except.ok { id := "uuid-1", name := "inst", status := "BUILD" },
     [GetResult.found { id := "uuid-1", name := "inst", status := "ACTIVE" }]⟩
    "uuid-1" rfl

/-- The nested databases of a user block are all mapped, in order. -/
theorem getDatabases_eq_map (l : List String) :
    getDatabases l = l.map (fun nm => { name := nm, charset := "", collate := "" }) := by
  induction l with
  | nil => rfl
  | cons a rest ih => simp [getDatabases, ih]

/-- C9 counterexample: a declared instance with two network attachments
yields a create request carrying only the first one. -/
theorem C9_counterexample_onlyFirstNetworkMapped :
    (buildInstanceCreateOpts
      { name := "db1", flavor_id := "f1", size := 2, datastore := [("5.6", "mysql")],
        network := [⟨"netA", "", "", ""⟩, ⟨"netB", "", "", ""⟩],
        database := [], user := [] }).networks
      = [⟨"netA", "", "", ""⟩] ∧
    ([⟨"netA", "", "", ""⟩, ⟨"netB", "", "", ""⟩] : List NetworkBlock).length = 2 := by
  exact ⟨rfl, rfl⟩

/-- C9 amended: the create request carries exactly the first element (when
present) of each of the declared network, database and user lists — never
the later elements — while the databases nested inside the single mapped
user block are all carried. -/
theorem C9_amended_headOnlyMapping :
    ∀ d : InstanceDecl,
      (buildInstanceCreateOpts d).networks = (d.network.take 1).map netOptsOf ∧
      (buildInstanceCreateOpts d).databases = (d.database.take 1).map dbOptsOf ∧
      (buildInstanceCreateOpts d).users = (d.user.take 1).map userOptsOf ∧
      ∀ u : UserBlock, (userOptsOf u).databases
        = u.databases.map (fun nm => { name := nm, charset := "", collate := "" }) := by
  intro d
  obtain ⟨nm, fl, sz, ds, net, db, usr⟩ := d
  refine ⟨?_, ?_, ?_, fun u => getDatabases_eq_map u.databases⟩
  · cases net <;> rfl
  · cases db <;> rfl
  · cases usr <;> rfl

end TroveProvider
